import Mathlib

/-!
Verification of the admin action registry (src/services/actionRegistry.ts) and the
speech-synthesis helper module against its natural-language specification.

The TypeScript source is shallowly embedded:
  * a JS object is modelled as a partial map from field names to values
    (`ObjF V := String → Option V`); the object spread `{ ...a, ...b }` becomes `spread`;
  * the realtime-database `users/` subtree is a partial map from user ids to objects
    (`Store V`);
  * fallible code is modelled with `Except String`;
  * external primitives (Firebase document/realtime calls, the browser speech API)
    are modelled either as explicit state passing, as an injectable environment of
    primitive outcomes (`Env`), or as traces of issued calls (`ExtCall`).
-/

/-- Dynamic JS values, as far as the verified claims need to distinguish them. -/
inductive Value where
  | vb : Bool → Value
  | vn : Int → Value
  | vs : String → Value
  deriving DecidableEq, Repr

/-- A JS object: a partial map from field names to values. `none` means the field
is absent. -/
abbrev ObjF (V : Type) := String → Option V

/-- The realtime-database `users/` subtree: a partial map from user id to the stored
user object. -/
abbrev Store (V : Type) := String → Option (ObjF V)

/-- JS object spread `{ ...a, ...b }`: fields present in `b` replace those of `a`,
all other fields are taken from `a`.  Models line 76 of actionRegistry.ts
(`const updatedUser = { ...currentUser, ...updates }`). -/
def spread {V : Type} (a b : ObjF V) : ObjF V := fun k =>
  match b k with
  | some v => some v
  | none => a k

/-- The read phase of `updateUser` (actionRegistry.ts line 72):
`get(ref(rtdb, ` followed by `users/` and the user id `))`. -/
def updateUserRead {V : Type} (store : Store V) (userId : String) : Option (ObjF V) :=
  store userId

/-- The write phase of `updateUser` (actionRegistry.ts lines 76 and 78): store the
spread of the (previously read) snapshot and the updates under the user's id.
`saveUserToLive` is imported from `../firebase`, which is not part of the sources;
modelled from the spec: "read current record → merge partial update → write back",
i.e. the merged record is written back to the slot it was read from. -/
def updateUserWrite {V : Type} (store : Store V) (userId : String)
    (snapshot updates : ObjF V) : Store V :=
  fun uid => if uid = userId then some (spread snapshot updates) else store uid

/-- `updateUser` (actionRegistry.ts lines 70-83): read the current user object; if the
snapshot does not exist, the inner `throw new Error("User not found")` is caught by
the surrounding try/catch and rethrown as "Failed to update user: User not found"
with the store untouched; otherwise write the shallow merge back and return the
status string. -/
def updateUser {V : Type} (store : Store V) (userId : String) (updates : ObjF V) :
    Except String String × Store V :=
  match updateUserRead store userId with
  | none => (Except.error "Failed to update user: User not found", store)
  | some currentUser =>
      (Except.ok ("User " ++ userId ++ " updated."),
       updateUserWrite store userId currentUser updates)

/-- The update object `{ isLocked: true }` passed by `banUser` (actionRegistry.ts
line 86). -/
def lockPatch : ObjF Value := fun k =>
  if k = "isLocked" then some (Value.vb true) else none

/-- `banUser` (actionRegistry.ts lines 85-87): delegates to `updateUser` with the
single-field patch `{ isLocked: true }`; the `reason` argument is accepted and
discarded, exactly as in the source. -/
def banUser (store : Store Value) (userId : String) (reason : String) :
    Except String String × Store Value :=
  updateUser store userId lockPatch

/-- Concrete user object used by witnesses: `{ credits: 5 }`. -/
def u1obj : ObjF Value := fun k => if k = "credits" then some (Value.vn 5) else none

/-- Concrete one-user store used by witnesses. -/
def store1 : Store Value := fun x => if x = "u1" then some u1obj else none

/-- Empty store used by witnesses. -/
def emptyStore : Store Value := fun _ => none

/-- JS `String.prototype.startsWith`, used to state which error messages carry the
wrapper shape `Failed to ...` that `updateUser` and `deleteUser` produce. -/
def strStartsWith (s pre : String) : Bool := pre.toList.isPrefixOf s.toList

/-- The wrapped-error shape of C2: the messages rethrown by `updateUser` and
`deleteUser` (actionRegistry.ts lines 66 and 81) both read `Failed to ...` and embed
the original message after that wrapper text. -/
def wrappedErrorShape (m : String) : Bool := strStartsWith m "Failed to "

/-- Environment of primitive external calls with injectable outcomes: each Firebase
primitive used by the registry either succeeds with its value or throws with a
message.  `rtdbGet` covers `get(ref(rtdb, path))`, `fsGetDocsUsers` the
`getDocs(collection(db, "users"))` query, and `fsGetDocsLogs` the limited
`ai_interactions` query. -/
structure Env where
  rtdbGet : String → Except String (Option (ObjF Value))
  saveUserToLive : ObjF Value → Except String Unit
  saveSystemSettings : ObjF Value → Except String Unit
  fsDeleteDoc : String → Except String Unit
  rtdbRemove : String → Except String Unit
  fsGetDocsUsers : Except String (List (ObjF Value))
  fsGetDocsLogs : Nat → Except String (List (ObjF Value))

/-- `getAllUsers` (actionRegistry.ts lines 39-47): a failed fetch is caught and
swallowed into an empty array. -/
def getAllUsersE (env : Env) : List (ObjF Value) :=
  match env.fsGetDocsUsers with
  | Except.ok l => l
  | Except.error _ => []

/-- `getSettings` (actionRegistry.ts lines 50-56): a missing snapshot or a failed
read is swallowed into `null`. -/
def getSettingsE (env : Env) : Option (ObjF Value) :=
  match env.rtdbGet "system_settings" with
  | Except.ok (some s) => some s
  | Except.ok none => none
  | Except.error _ => none

/-- `getRecentLogs` (actionRegistry.ts lines 198-204): a failed fetch is caught and
swallowed into an empty array. -/
def getRecentLogsE (env : Env) (limit : Nat) : List (ObjF Value) :=
  match env.fsGetDocsLogs limit with
  | Except.ok l => l
  | Except.error _ => []

/-- `deleteUser` (actionRegistry.ts lines 60-68): delete from Firestore, then from
the realtime database; any error is rethrown with the wrapper
`Failed to delete user {id}: {original}`. -/
def deleteUserE (env : Env) (userId : String) : Except String String :=
  match env.fsDeleteDoc ("users/" ++ userId) with
  | Except.error e => Except.error ("Failed to delete user " ++ userId ++ ": " ++ e)
  | Except.ok _ =>
      match env.rtdbRemove ("users/" ++ userId) with
      | Except.error e =>
          Except.error ("Failed to delete user " ++ userId ++ ": " ++ e)
      | Except.ok _ =>
          Except.ok ("User " ++ userId ++ " deleted successfully from Firestore and RTDB.")

/-- `updateUser` under injectable primitive failures (actionRegistry.ts lines 70-83):
every error inside the try block — a failing read, the inner
`throw new Error("User not found")`, or a failing save — is caught and rethrown as
`Failed to update user: {original}`. -/
def updateUserE (env : Env) (userId : String) (updates : ObjF Value) :
    Except String String :=
  match env.rtdbGet ("users/" ++ userId) with
  | Except.error e => Except.error ("Failed to update user: " ++ e)
  | Except.ok none => Except.error ("Failed to update user: " ++ "User not found")
  | Except.ok (some currentUser) =>
      match env.saveUserToLive (spread currentUser updates) with
      | Except.error e => Except.error ("Failed to update user: " ++ e)
      | Except.ok _ => Except.ok ("User " ++ userId ++ " updated.")

/-- `updateSystemSettings` (actionRegistry.ts lines 250-256): no try/catch — when
`getSettings` yields `null` the raw `Error("Settings not found")` escapes as-is, and
a failing `saveSystemSettings` escapes unwrapped as well. -/
def updateSystemSettingsE (env : Env) (updates : ObjF Value) : Except String String :=
  match getSettingsE env with
  | none => Except.error "Settings not found"
  | some settings =>
      match env.saveSystemSettings (spread settings updates) with
      | Except.error e => Except.error e
      | Except.ok _ => Except.ok "Settings updated."

/-- The empty JS object. -/
def emptyObj : ObjF Value := fun _ => none

/-- Environment in which every primitive succeeds and every read finds nothing. -/
def env0 : Env where
  rtdbGet := fun _ => Except.ok none
  saveUserToLive := fun _ => Except.ok ()
  saveSystemSettings := fun _ => Except.ok ()
  fsDeleteDoc := fun _ => Except.ok ()
  rtdbRemove := fun _ => Except.ok ()
  fsGetDocsUsers := Except.ok []
  fsGetDocsLogs := fun _ => Except.ok []

/-- Environment in which every primitive fails with the message `boom`. -/
def envFail : Env where
  rtdbGet := fun _ => Except.error "boom"
  saveUserToLive := fun _ => Except.error "boom"
  saveSystemSettings := fun _ => Except.error "boom"
  fsDeleteDoc := fun _ => Except.error "boom"
  rtdbRemove := fun _ => Except.error "boom"
  fsGetDocsUsers := Except.error "boom"
  fsGetDocsLogs := fun _ => Except.error "boom"

/-- The keys of the `ActionRegistry` map (actionRegistry.ts lines 320-343), in source
order. -/
def ActionRegistryKeys : List String :=
  ["deleteUser", "updateUser", "banUser", "unbanUser", "grantSubscription",
   "broadcastMessage", "sendInboxMessage", "createWeeklyTest", "scanUsers",
   "getRecentLogs", "addSubject", "generateGiftCodes", "updateSystemSettings",
   "toggleSetting", "addPackage", "removePackage", "promoteSubAdmin",
   "demoteSubAdmin", "approveRecoveryRequest", "addUniversalVideo",
   "saveCustomBloggerPage", "runAutoPilot"]

/-- Whether the registry action of the given name returns a human-readable status
string on successful completion, transcribed from each function's return
expressions in actionRegistry.ts:
`deleteUser` line 64, `updateUser` line 79 (also reached by `banUser`, `unbanUser`,
`grantSubscription`, `promoteSubAdmin`, `demoteSubAdmin`), `broadcastMessage`
lines 137/139, `sendInboxMessage` line 157, `createWeeklyTest` line 180,
`addSubject` line 216, `generateGiftCodes` line 247, `updateSystemSettings` line 255
(also reached by `toggleSetting`), `addPackage` line 268, `removePackage` line 276,
`approveRecoveryRequest` line 291, `addUniversalVideo` line 298,
`saveCustomBloggerPage` line 303, `runAutoPilot` lines 314/316 — all strings; but
`scanUsers` (line 195) returns `result.map(u => ({ id, name, email, role, credits,
tier }))`, an array of summary objects, and `getRecentLogs` (line 202) returns
`snapshot.docs.map(d => d.data())`, an array of documents. -/
def returnsHumanStatusString : String → Bool
  | "deleteUser" => true
  | "updateUser" => true
  | "banUser" => true
  | "unbanUser" => true
  | "grantSubscription" => true
  | "broadcastMessage" => true
  | "sendInboxMessage" => true
  | "createWeeklyTest" => true
  | "scanUsers" => false
  | "getRecentLogs" => false
  | "addSubject" => true
  | "generateGiftCodes" => true
  | "updateSystemSettings" => true
  | "toggleSetting" => true
  | "addPackage" => true
  | "removePackage" => true
  | "promoteSubAdmin" => true
  | "demoteSubAdmin" => true
  | "approveRecoveryRequest" => true
  | "addUniversalVideo" => true
  | "saveCustomBloggerPage" => true
  | "runAutoPilot" => true
  | _ => false

/-- The user fields `scanUsers` reads (types.ts is external; fields as used at
actionRegistry.ts lines 183-196). -/
structure UserRec where
  id : String
  name : String
  email : String
  role : String
  credits : Int
  subscriptionTier : Option String
  isPremium : Bool
  lastActiveTime : Option String
  deriving DecidableEq, Repr

/-- The per-user summary object built by `scanUsers` (actionRegistry.ts line 195). -/
structure UserSummary where
  id : String
  name : String
  email : String
  role : String
  credits : Int
  tier : Option String
  deriving DecidableEq, Repr

/-- The `filter` union type of `scanUsers`. -/
inductive ScanFilter where
  | ALL
  | PREMIUM
  | FREE
  | INACTIVE
  deriving DecidableEq, Repr

/-- The summary projection of `scanUsers` (actionRegistry.ts line 195). -/
def mkUserSummary (u : UserRec) : UserSummary :=
  ⟨u.id, u.name, u.email, u.role, u.credits, u.subscriptionTier⟩

/-- `scanUsers` (actionRegistry.ts lines 183-196).  The INACTIVE predicate
`!u.lastActiveTime || new Date(u.lastActiveTime) < monthAgo` depends on the current
clock; the comparison against the month-ago instant is abstracted as the parameter
`beforeMonthAgo`.  The result is an array of summary objects, not a status
string. -/
def scanUsers (users : List UserRec) (filter : ScanFilter)
    (beforeMonthAgo : String → Bool) : List UserSummary :=
  let result :=
    match filter with
    | ScanFilter.ALL => users
    | ScanFilter.PREMIUM => users.filter fun u => u.isPremium
    | ScanFilter.FREE => users.filter fun u => !u.isPremium
    | ScanFilter.INACTIVE =>
        users.filter fun u =>
          match u.lastActiveTime with
          | none => true
          | some t => beforeMonthAgo t
  result.map mkUserSummary

/-- A tool descriptor's `function` field: name, description, and the JSON-Schema
`parameters` object (its `type`, the declared property names with their JSON-Schema
types, and the optional `required` list). -/
structure ToolFunction where
  name : String
  description : String
  paramType : String
  properties : List (String × String)
  required : Option (List String)
  deriving DecidableEq, Repr

/-- One element of the `adminTools` array: the `type` field and the `function`
descriptor. -/
structure AdminTool where
  ttype : String
  fn : ToolFunction
  deriving DecidableEq, Repr

/-- The first `adminTools` entry (actionRegistry.ts lines 347-358). -/
def toolDeleteUser : AdminTool :=
  ⟨"function", ⟨"deleteUser", "Delete a user permanently.", "object",
    [("userId", "string")], some ["userId"]⟩⟩

/-- The `adminTools` array (actionRegistry.ts lines 346-506), transcribed entry by
entry; enum value lists of string properties are not modelled. -/
def adminTools : List AdminTool :=
  [toolDeleteUser,
   ⟨"function", ⟨"updateUser", "Update user details (credits, etc).", "object",
     [("userId", "string"), ("updates", "object")], some ["userId", "updates"]⟩⟩,
   ⟨"function", ⟨"grantSubscription", "Give a premium subscription.", "object",
     [("userId", "string"), ("plan", "string"), ("level", "string")],
     some ["userId", "plan", "level"]⟩⟩,
   ⟨"function", ⟨"banUser", "Ban a user.", "object",
     [("userId", "string"), ("reason", "string")], some ["userId"]⟩⟩,
   ⟨"function", ⟨"unbanUser", "Unban a user.", "object",
     [("userId", "string")], some ["userId"]⟩⟩,
   ⟨"function", ⟨"broadcastMessage", "Set a global banner message.", "object",
     [("message", "string")], some ["message"]⟩⟩,
   ⟨"function", ⟨"sendInboxMessage", "Send private message.", "object",
     [("userId", "string"), ("text", "string")], some ["userId", "text"]⟩⟩,
   ⟨"function", ⟨"scanUsers", "List users.", "object",
     [("filter", "string")], some ["filter"]⟩⟩,
   ⟨"function", ⟨"generateGiftCodes", "Generate redeem codes.", "object",
     [("amount", "number"), ("count", "number"), ("type", "string")],
     some ["amount", "count"]⟩⟩,
   ⟨"function", ⟨"toggleSetting",
     "Toggle a system boolean setting (maintenance, ai, autopilot).", "object",
     [("key", "string"), ("value", "boolean")], some ["key", "value"]⟩⟩,
   ⟨"function", ⟨"promoteSubAdmin", "Make user a Sub-Admin.", "object",
     [("userId", "string")], some ["userId"]⟩⟩,
   ⟨"function", ⟨"demoteSubAdmin", "Remove Sub-Admin rights.", "object",
     [("userId", "string")], some ["userId"]⟩⟩,
   ⟨"function", ⟨"runAutoPilot", "Trigger AI Auto-Pilot once.", "object",
     [], none⟩⟩]

/-- A `SpeechSynthesisVoice` as far as the speech module inspects it: its BCP-47
`lang` tag and its display `name`. -/
structure Voice where
  lang : String
  name : String
  deriving DecidableEq, Repr

/-- JS `String.prototype.includes`: substring containment. -/
def jsIncludes (s sub : String) : Bool :=
  (List.range (s.toList.length + 1)).any fun i => sub.toList.isPrefixOf (s.toList.drop i)

/-- JS `String.prototype.toLowerCase`, modelled per character. -/
def jsToLower (s : String) : String := String.mk (s.toList.map Char.toLower)

/-- The regex test `/[ऀ-ॿ]/.test(text)` of speech.ts line 49: does the text
contain a Devanagari character? -/
def containsDevanagari (text : String) : Bool :=
  text.toList.any fun c => decide (0x900 ≤ c.toNat ∧ c.toNat ≤ 0x97F)

/-- The `SpeechSynthesisUtterance` state that `speakText` configures before calling
`speak`: the selected voice and the final `lang` field (rate and pitch are constants
and are not modelled). -/
structure Utterance where
  voice : Option Voice
  lang : String
  deriving DecidableEq, Repr

/-- The voice auto-selection of `speakText` (speech module lines 47-64): for
Devanagari text the first voice whose lang includes `hi` and name includes `Google`,
else the first whose lang includes `hi`; otherwise the first whose lang is or
includes `en-IN` and name includes `Google`, else the first whose lang is or
includes `en-IN`, else the first whose name includes `India`. -/
def autoSelectVoice (text : String) (voices : List Voice) : Option Voice :=
  if containsDevanagari text then
    match voices.find? fun v => jsIncludes v.lang "hi" && jsIncludes v.name "Google" with
    | some v => some v
    | none => voices.find? fun v => jsIncludes v.lang "hi"
  else
    match voices.find? fun v =>
        (v.lang == "en-IN" || jsIncludes v.lang "en-IN") && jsIncludes v.name "Google" with
    | some v => some v
    | none =>
      match voices.find? fun v => v.lang == "en-IN" || jsIncludes v.lang "en-IN" with
      | some v => some v
      | none => voices.find? fun v => jsIncludes v.name "India"

/-- `speakText` (speech module lines 35-76), given the platform voice list.  Returns
`none` when `speechSynthesis` is unsupported (early return), otherwise the utterance
state passed to `speak`.  When no explicit voice is supplied, `autoSelectVoice`
picks one.  The branch-local assignments `utterance.lang = 'hi-IN'` (line 55) and
`utterance.lang = 'en-IN'` (line 62) are dead whenever a voice was chosen: line 68
(`utterance.lang = voice.lang || lang`) overwrites them with the voice's own lang
(or the `lang` parameter when the voice's lang is the empty string); when no voice
was chosen, line 70 sets the `lang` parameter. -/
def speakText (supported : Bool) (text : String) (voiceArg : Option Voice)
    (lang : String) (voices : List Voice) : Option Utterance :=
  if !supported then none
  else
    let voice : Option Voice :=
      match voiceArg with
      | some v => some v
      | none => autoSelectVoice text voices
    match voice with
    | some v => some ⟨some v, if v.lang == "" then lang else v.lang⟩
    | none => some ⟨none, lang⟩

/-- The voice choice exactly as claim C5 words it (spec side, for comparison with the
source model): for Devanagari text, first voice whose lang includes `hi` and name
includes `Google`, else first whose lang includes `hi`, else none; otherwise first
voice with lang exactly `en-IN` and name including `Google`, else first with lang
exactly `en-IN`, else first whose name includes `India`, else none. -/
def claimC5Voice (text : String) (voices : List Voice) : Option Voice :=
  if containsDevanagari text then
    match voices.find? fun v => jsIncludes v.lang "hi" && jsIncludes v.name "Google" with
    | some v => some v
    | none => voices.find? fun v => jsIncludes v.lang "hi"
  else
    match voices.find? fun v => v.lang == "en-IN" && jsIncludes v.name "Google" with
    | some v => some v
    | none =>
      match voices.find? fun v => v.lang == "en-IN" with
      | some v => some v
      | none => voices.find? fun v => jsIncludes v.name "India"

/-- The utterance language exactly as claim C5 words it (spec side): on successful
selection, `hi-IN` for Devanagari text and `en-IN` otherwise. -/
def claimC5Lang (text : String) (voices : List Voice) : Option String :=
  match claimC5Voice text voices with
  | some _ => some (if containsDevanagari text then "hi-IN" else "en-IN")
  | none => none

/-- The amended C5 voice choice, stated over first-match-in-filtered-list: like the
claim but with lang-includes-`en-IN` matching (as `v.lang === 'en-IN' ||
v.lang.includes('en-IN')` collapses to) in the non-Devanagari tiers. -/
def amendedC5Voice (text : String) (voices : List Voice) : Option Voice :=
  if containsDevanagari text then
    match (voices.filter fun v => jsIncludes v.lang "hi" && jsIncludes v.name "Google").head? with
    | some v => some v
    | none => (voices.filter fun v => jsIncludes v.lang "hi").head?
  else
    match (voices.filter fun v =>
        (v.lang == "en-IN" || jsIncludes v.lang "en-IN") && jsIncludes v.name "Google").head? with
    | some v => some v
    | none =>
      match (voices.filter fun v => v.lang == "en-IN" || jsIncludes v.lang "en-IN").head? with
      | some v => some v
      | none => (voices.filter fun v => jsIncludes v.name "India").head?

/-- The amended C5 utterance: the chosen voice together with the final language — the
chosen voice's lang when nonempty, the `lang` parameter otherwise. -/
def amendedC5Utterance (text : String) (voices : List Voice) (lang : String) :
    Utterance :=
  match amendedC5Voice text voices with
  | some v => ⟨some v, if v.lang == "" then lang else v.lang⟩
  | none => ⟨none, lang⟩

/-- The three categories returned by `getCategorizedVoices` (speech module lines
26-33). -/
structure CategorizedVoices where
  hindi : List Voice
  indianEnglish : List Voice
  others : List Voice
  deriving DecidableEq, Repr

/-- `getCategorizedVoices` (speech module lines 26-33), applied to the available
voice list. -/
def getCategorizedVoices (voices : List Voice) : CategorizedVoices where
  hindi := voices.filter fun v =>
    jsIncludes v.lang "hi" || jsIncludes (jsToLower v.name) "hindi"
  indianEnglish := voices.filter fun v =>
    v.lang == "en-IN" || (jsIncludes v.lang "en" && jsIncludes (jsToLower v.name) "india")
  others := voices.filter fun v =>
    !jsIncludes v.lang "hi" && !jsIncludes (jsToLower v.name) "hindi" &&
    v.lang != "en-IN" && !jsIncludes (jsToLower v.name) "india"

/-- The `type` union of a gift code: `'CREDITS' | 'SUBSCRIPTION'`. -/
inductive GCType where
  | CREDITS
  | SUBSCRIPTION
  deriving DecidableEq, Repr

/-- A `GiftCode` record with the fields `generateGiftCodes` constructs
(actionRegistry.ts lines 226-239; the `GiftCode` type itself lives in the external
types.ts). -/
structure GiftCode where
  id : String
  code : String
  gtype : GCType
  amount : Int
  subTier : Option String
  subLevel : Option String
  createdAt : String
  isRedeemed : Bool
  generatedBy : String
  maxUses : Nat
  usedCount : Nat
  redeemedBy : List String
  deriving DecidableEq, Repr

/-- The code alphabet `ABCDEFGHJKLMNPQRSTUVWXYZ23456789` of actionRegistry.ts
line 221, as its 32 characters. -/
def codeCharsList : List Char :=
  ['A', 'B', 'C', 'D', 'E', 'F', 'G', 'H', 'J', 'K', 'L', 'M', 'N', 'P', 'Q', 'R',
   'S', 'T', 'U', 'V', 'W', 'X', 'Y', 'Z', '2', '3', '4', '5', '6', '7', '8', '9']

/-- The inner loop of actionRegistry.ts line 224: twelve characters drawn from the
alphabet at positions given by the stream of `Math.floor(Math.random() * 32)` draws;
`rand` is that stream (each draw is in `0..31` by construction) and `offset` the
index of the first draw this code consumes. -/
def genOneCode (rand : Nat → Fin 32) (offset : Nat) : List Char :=
  (List.range 12).map fun j =>
    codeCharsList.get (Fin.cast (by rfl) (rand (offset + j)))

/-- One `GiftCode` object literal (actionRegistry.ts lines 226-239) for loop index
`i`: `id` is `Date.now().toString() + i` (`now` abstracts the clock tick), the code
is the 12 drawn characters upper-cased (`.toUpperCase()` modelled per character),
`amount` is the given amount for CREDITS and `0` for SUBSCRIPTION, `subTier` /
`subLevel` default to `WEEKLY` / `BASIC` for SUBSCRIPTION and are `undefined` for
CREDITS, and the bookkeeping fields are the literal constants of the source. -/
def mkGiftCode (amount : Int) (gtype : GCType) (rand : Nat → Fin 32) (now : Nat)
    (createdAt : String) (i : Nat) : GiftCode where
  id := toString now ++ toString i
  code := String.mk ((genOneCode rand (12 * i)).map Char.toUpper)
  gtype := gtype
  amount := if gtype = GCType.CREDITS then amount else 0
  subTier := if gtype = GCType.SUBSCRIPTION then some "WEEKLY" else none
  subLevel := if gtype = GCType.SUBSCRIPTION then some "BASIC" else none
  createdAt := createdAt
  isRedeemed := false
  generatedBy := "AI_ADMIN"
  maxUses := 1
  usedCount := 0
  redeemedBy := []

/-- `generateGiftCodes` (actionRegistry.ts lines 219-248): the list of created code
records (each also written to `redeem_codes/{code}`) and the returned status
string. -/
def generateGiftCodes (amount : Int) (count : Nat) (gtype : GCType)
    (rand : Nat → Fin 32) (now : Nat) (createdAt : String) :
    List GiftCode × String :=
  let newCodes := (List.range count).map (mkGiftCode amount gtype rand now createdAt)
  (newCodes,
   toString count ++ " Gift Codes Generated: " ++
     String.intercalate ", " (newCodes.map fun c => c.code))

/-- The constantly-zero draw stream, used by witnesses. -/
def randZero : Nat → Fin 32 := fun _ => 0

/-- The external calls the program issues, as trace entries. -/
inductive ExtCall where
  | rtdbGet : String → ExtCall
  | rtdbSet : String → ExtCall
  | rtdbRemove : String → ExtCall
  | fsDeleteDoc : String → ExtCall
  | fsGetDocs : String → ExtCall
  | saveUser : ExtCall
  | saveSettings : ExtCall
  | synthGetVoices : ExtCall
  | synthCancel : ExtCall
  | synthSpeak : ExtCall
  | setVoicesHandler : ExtCall
  | setTimer : Nat → ExtCall
  deriving DecidableEq, Repr

/-- The calls `updateUser` issues (actionRegistry.ts lines 70-83): one read of
`users/{id}`, then — only when the snapshot exists — one save. -/
def updateUserCalls (store : Store Value) (userId : String) : List ExtCall :=
  ExtCall.rtdbGet ("users/" ++ userId) ::
    (match store userId with
     | some _ => [ExtCall.saveUser]
     | none => [])

/-- The calls `deleteUser` issues (actionRegistry.ts lines 60-68): one Firestore
delete, then one realtime-database remove. -/
def deleteUserCalls (userId : String) : List ExtCall :=
  [ExtCall.fsDeleteDoc ("users/" ++ userId), ExtCall.rtdbRemove ("users/" ++ userId)]

/-- The calls `updateSystemSettings` issues (actionRegistry.ts lines 250-256): one
settings read, then — only when settings exist — one save. -/
def updateSystemSettingsCalls (settings : Option (ObjF Value)) : List ExtCall :=
  ExtCall.rtdbGet "system_settings" ::
    (match settings with
     | some _ => [ExtCall.saveSettings]
     | none => [])

/-- The calls `generateGiftCodes` issues (actionRegistry.ts line 241): one
`set(ref(rtdb, redeem_codes/{code}))` per generated code. -/
def generateGiftCodesCalls (rand : Nat → Fin 32) (count : Nat) : List ExtCall :=
  (List.range count).map fun i =>
    ExtCall.rtdbSet
      ("redeem_codes/" ++ String.mk ((genOneCode rand (12 * i)).map Char.toUpper))

/-- The calls `getAvailableVoices` issues (speech module lines 1-24): nothing when
unsupported; otherwise one `getVoices()`, and — when that list is empty — an
`onvoiceschanged` handler registration plus the 2000 ms fallback `setTimeout` of
lines 20-22. -/
def getAvailableVoicesCalls (supported : Bool) (initialVoices : List Voice) :
    List ExtCall :=
  if supported then
    ExtCall.synthGetVoices ::
      (if initialVoices.isEmpty then
        [ExtCall.setVoicesHandler, ExtCall.setTimer 2000]
       else [])
  else []

/-- The calls `speakText` issues (speech module lines 35-76): nothing when
unsupported; otherwise `speechSynthesis.cancel()` (line 42), then `getVoices()` when
auto-selecting (line 48), then `speak` (line 75). -/
def speakTextCalls (supported : Bool) (voiceArg : Option Voice) : List ExtCall :=
  if supported then
    ExtCall.synthCancel ::
      ((match voiceArg with
        | none => [ExtCall.synthGetVoices]
        | some _ => []) ++ [ExtCall.synthSpeak])
  else []

/-- The calls `stopSpeech` issues (speech module lines 78-82). -/
def stopSpeechCalls (supported : Bool) : List ExtCall :=
  if supported then [ExtCall.synthCancel] else []

/-- C1: for every existing user record, `updateUser` writes back the shallow merge of
the last-read snapshot with the partial update — fields present in the update replace
the snapshot's fields, all other fields are taken from the snapshot — leaves every
other user untouched and succeeds; if the user record does not exist it throws and
the store is unchanged. -/
theorem updateUser_spec {V : Type} (store : Store V) (uid : String) (upd : ObjF V) :
    (∀ u, store uid = some u →
       ∃ u', (updateUser store uid upd).2 uid = some u' ∧
         (∀ k v, upd k = some v → u' k = some v) ∧
         (∀ k, upd k = none → u' k = u k) ∧
         (∀ x, x ≠ uid → (updateUser store uid upd).2 x = store x) ∧
         ∃ m, (updateUser store uid upd).1 = Except.ok m) ∧
    (store uid = none →
       (updateUser store uid upd).1 = Except.error "Failed to update user: User not found" ∧
       (updateUser store uid upd).2 = store) := by
  constructor
  · intro u hu
    refine ⟨spread u upd, ?_, ?_, ?_, ?_, ?_⟩
    · simp [updateUser, updateUserRead, updateUserWrite, hu]
    · intro k v hk
      simp [spread, hk]
    · intro k hk
      simp [spread, hk]
    · intro x hx
      simp [updateUser, updateUserRead, updateUserWrite, hu, hx]
    · exact ⟨"User " ++ uid ++ " updated.", by simp [updateUser, updateUserRead, hu]⟩
  · intro hu
    constructor
    · simp [updateUser, updateUserRead, hu]
    · simp [updateUser, updateUserRead, hu]

/-- Witness for C1: on the concrete store `store1` holding user `u1` with
`{ credits: 5 }`, updating with `{ isLocked: true }` yields a stored record with
`isLocked = true` and `credits = 5`. -/
theorem updateUser_spec_witness :
    ∃ u', (updateUser store1 "u1" lockPatch).2 "u1" = some u' ∧
      u' "isLocked" = some (Value.vb true) ∧
      u' "credits" = some (Value.vn 5) := by
  obtain ⟨u', hu, hupd, hrest, _, _⟩ :=
    (updateUser_spec store1 "u1" lockPatch).1 u1obj rfl
  refine ⟨u', hu, hupd "isLocked" (Value.vb true) rfl, ?_⟩
  rw [hrest "credits" rfl]
  rfl

/-- C2 counterexample: `updateSystemSettings`, on an absent settings record with every
primitive succeeding, produces the raw error `Settings not found`.  That error is
neither rethrown with the `Failed to ...` wrapper shape of `updateUser`/`deleteUser`
(third conjunct shows that shape on a genuine wrapped message) nor swallowed into an
empty/null fallback — it escapes unwrapped, contradicting the claim that no error
escapes unwrapped. -/
theorem errorHandling_cex :
    updateSystemSettingsE env0 emptyObj = Except.error "Settings not found" ∧
    wrappedErrorShape "Settings not found" = false ∧
    wrappedErrorShape "Failed to update user: User not found" = true := by
  refine ⟨rfl, by decide, by decide⟩

/-- C2 amended: errors inside the registry fall into three shapes, not two.
`updateUser` and `deleteUser` rethrow every error wrapped (`Failed to update user:`
/ `Failed to delete user {id}:` followed by the original message); the read helpers
`getSettings`, `getAllUsers` and `getRecentLogs` swallow failures into null/empty
fallbacks; but other actions also let raw unwrapped errors escape — e.g.
`updateSystemSettings` throws the bare `Settings not found`. -/
theorem errorHandling_modes :
    (∀ env uid upd m, updateUserE env uid upd = Except.error m →
       ∃ orig, m = "Failed to update user: " ++ orig) ∧
    (∀ env uid m, deleteUserE env uid = Except.error m →
       ∃ orig, m = "Failed to delete user " ++ uid ++ ": " ++ orig) ∧
    (∀ env e, env.rtdbGet "system_settings" = Except.error e → getSettingsE env = none) ∧
    (∀ env e, env.fsGetDocsUsers = Except.error e → getAllUsersE env = []) ∧
    (∀ env n e, env.fsGetDocsLogs n = Except.error e → getRecentLogsE env n = []) ∧
    (∃ env upd m, updateSystemSettingsE env upd = Except.error m ∧
       wrappedErrorShape m = false) := by
  refine ⟨?_, ?_, ?_, ?_, ?_, ?_⟩
  · intro env uid upd m hm
    unfold updateUserE at hm
    split at hm
    · exact ⟨_, (Except.error.injEq _ _).mp hm.symm⟩
    · exact ⟨"User not found", (Except.error.injEq _ _).mp hm.symm⟩
    · split at hm
      · exact ⟨_, (Except.error.injEq _ _).mp hm.symm⟩
      · exact absurd hm (by simp)
  · intro env uid m hm
    unfold deleteUserE at hm
    split at hm
    · exact ⟨_, (Except.error.injEq _ _).mp hm.symm⟩
    · split at hm
      · exact ⟨_, (Except.error.injEq _ _).mp hm.symm⟩
      · exact absurd hm (by simp)
  · intro env e hg
    unfold getSettingsE
    rw [hg]
  · intro env e hg
    unfold getAllUsersE
    rw [hg]
  · intro env n e hg
    unfold getRecentLogsE
    rw [hg]
  · exact ⟨env0, emptyObj, "Settings not found", rfl, by decide⟩

/-- Witness for C2's amended theorem at concrete environments: the all-failing
environment makes the read helpers fall back to null/empty, and a concrete failing
update is wrapped. -/
theorem errorHandling_modes_witness :
    getSettingsE envFail = none ∧
    getAllUsersE envFail = [] ∧
    getRecentLogsE envFail 20 = [] ∧
    (∃ orig, "Failed to update user: boom" = "Failed to update user: " ++ orig) := by
  refine ⟨errorHandling_modes.2.2.1 envFail "boom" rfl,
          errorHandling_modes.2.2.2.1 envFail "boom" rfl,
          errorHandling_modes.2.2.2.2.1 envFail 20 "boom" rfl,
          errorHandling_modes.1 envFail "u1" emptyObj "Failed to update user: boom" rfl⟩

/-- C7: `updateUser` is read-then-write with no version check, so two invocations
against the same record can clobber each other.  Concretely: both start from a store
where user `u1` has `credits = 5`; writer A reads its snapshot; writer B then
completes a full `updateUser` setting `credits = 10`; A finally performs its write
phase, merging its own patch onto the stale snapshot.  B's value is silently
reverted to 5, although running the two updates sequentially (B completing before A
reads) preserves `credits = 10`. -/
theorem updateUser_lost_update :
    ∃ (store : Store Value) (uid : String) (snapA pA pB : ObjF Value),
      updateUserRead store uid = some snapA ∧
      ((updateUser store uid pB).2 uid).bind (fun o => o "credits")
        = some (Value.vn 10) ∧
      ((updateUserWrite ((updateUser store uid pB).2) uid snapA pA) uid).bind
          (fun o => o "credits")
        = some (Value.vn 5) ∧
      ((updateUser ((updateUser store uid pB).2) uid pA).2 uid).bind
          (fun o => o "credits")
        = some (Value.vn 10) := by
  refine ⟨store1, "u1", u1obj,
          (fun k => if k = "isLocked" then some (Value.vb true) else none),
          (fun k => if k = "credits" then some (Value.vn 10) else none),
          rfl, ?_, ?_, ?_⟩
  · rfl
  · rfl
  · rfl

/-- C9: `banUser` writes the user record back with `isLocked` set to `true` and every
other field unchanged (and touches no other user); the `reason` argument is never
persisted, so two calls differing only in the reason produce identical results. -/
theorem banUser_frame (store : Store Value) (uid r1 r2 : String) (u : ObjF Value)
    (h : store uid = some u) :
    (∃ u', (banUser store uid r1).2 uid = some u' ∧
       u' "isLocked" = some (Value.vb true) ∧
       ∀ k, k ≠ "isLocked" → u' k = u k) ∧
    (∀ x, x ≠ uid → (banUser store uid r1).2 x = store x) ∧
    banUser store uid r1 = banUser store uid r2 := by
  obtain ⟨u', hu, hupd, hrest, hframe, _⟩ :=
    (updateUser_spec store uid lockPatch).1 u h
  refine ⟨⟨u', hu, hupd "isLocked" (Value.vb true) rfl, ?_⟩, hframe, rfl⟩
  intro k hk
  exact hrest k (by simp [lockPatch, hk])

/-- Witness for C9 at the concrete store `store1`: user `u1` ends locked with its
`credits` field intact, and the two reasons `spam` and `abuse` yield equal results. -/
theorem banUser_frame_witness :
    (∃ u', (banUser store1 "u1" "spam").2 "u1" = some u' ∧
       u' "isLocked" = some (Value.vb true) ∧
       u' "credits" = u1obj "credits") ∧
    banUser store1 "u1" "spam" = banUser store1 "u1" "abuse" := by
  obtain ⟨⟨u', hu, hlock, hrest⟩, _, _⟩ :=
    banUser_frame store1 "u1" "spam" "abuse" u1obj rfl
  exact ⟨⟨u', hu, hlock, hrest "credits" (by decide)⟩,
         (banUser_frame store1 "u1" "spam" "abuse" u1obj rfl).2.2⟩

/-- C3 counterexample: not every action in the `ActionRegistry` map returns a
human-readable status string on success — `scanUsers` is a registry key whose
success value is an array of summary objects (see `scanUsers` in this file), and the
registry-wide statement is decidably false. -/
theorem registryReturns_cex :
    "scanUsers" ∈ ActionRegistryKeys ∧
    returnsHumanStatusString "scanUsers" = false ∧
    decide (∀ a ∈ ActionRegistryKeys, returnsHumanStatusString a = true) = false := by
  refine ⟨by decide, rfl, by decide⟩

/-- C3 amended: every action in the `ActionRegistry` map except `scanUsers` and
`getRecentLogs` returns a human-readable status string on successful completion;
`scanUsers` instead returns an array of per-user summary objects (each one the
summary projection of an input user) and `getRecentLogs` an array of log
documents. -/
theorem registryReturns_amended :
    (∀ a ∈ ActionRegistryKeys,
       returnsHumanStatusString a = (a != "scanUsers" && a != "getRecentLogs")) ∧
    (∀ users filter beforeMonthAgo, ∀ s ∈ scanUsers users filter beforeMonthAgo,
       ∃ u, u ∈ users ∧ s = mkUserSummary u) := by
  constructor
  · decide
  · intro users filter beforeMonthAgo s hs
    unfold scanUsers at hs
    rcases List.mem_map.mp hs with ⟨u, hu, rfl⟩
    refine ⟨u, ?_, rfl⟩
    rcases filter with _ | _ | _ | _
    · exact hu
    · exact List.mem_of_mem_filter hu
    · exact List.mem_of_mem_filter hu
    · exact List.mem_of_mem_filter hu

/-- Witness for C3's amended theorem: instantiated at the key `deleteUser` and at a
one-user `scanUsers` run whose single summary comes from that user. -/
theorem registryReturns_amended_witness :
    returnsHumanStatusString "deleteUser" = true ∧
    (∃ u, u ∈ [(⟨"u1", "A", "a@x", "STUDENT", 5, none, false, none⟩ : UserRec)] ∧
       mkUserSummary (⟨"u1", "A", "a@x", "STUDENT", 5, none, false, none⟩ : UserRec)
         = mkUserSummary u) := by
  constructor
  · have h := registryReturns_amended.1 "deleteUser" (by decide)
    simpa using h
  · exact registryReturns_amended.2
      [⟨"u1", "A", "a@x", "STUDENT", 5, none, false, none⟩] ScanFilter.ALL
      (fun _ => false)
      (mkUserSummary ⟨"u1", "A", "a@x", "STUDENT", 5, none, false, none⟩)
      (by simp [scanUsers])

/-- C4: every element of `adminTools` is a descriptor of type `function` carrying a
(nonempty) name and description and an object-typed JSON-Schema parameters object
whose `required` list names only declared properties, and every tool name is a key
of the `ActionRegistry` map. -/
theorem adminTools_wellFormed :
    ∀ t ∈ adminTools,
      t.ttype = "function" ∧
      t.fn.name ≠ "" ∧
      t.fn.description ≠ "" ∧
      t.fn.paramType = "object" ∧
      (∀ r ∈ t.fn.required.getD [], r ∈ t.fn.properties.map Prod.fst) ∧
      t.fn.name ∈ ActionRegistryKeys := by
  decide

/-- Witness for C4 at the concrete first tool: `deleteUser`'s descriptor is of type
`function`, requires only the declared property `userId`, and names a registry
key. -/
theorem adminTools_wellFormed_witness :
    toolDeleteUser ∈ adminTools ∧
    "userId" ∈ toolDeleteUser.fn.required.getD [] ∧
    toolDeleteUser.ttype = "function" ∧
    "userId" ∈ toolDeleteUser.fn.properties.map Prod.fst ∧
    toolDeleteUser.fn.name ∈ ActionRegistryKeys := by
  have h := adminTools_wellFormed toolDeleteUser (by decide)
  exact ⟨by decide, by decide, h.1, h.2.2.2.2.1 "userId" (by decide), h.2.2.2.2.2⟩

/-- Helper: the first element satisfying a predicate is the head of the filtered
list. -/
theorem findEqFilterHead {α : Type} (p : α → Bool) (l : List α) :
    l.find? p = (l.filter p).head? := by
  induction l with
  | nil => rfl
  | cons a t ih =>
    by_cases h : p a
    · rw [List.find?_cons_of_pos _ h, List.filter_cons_of_pos h, List.head?_cons]
    · rw [List.find?_cons_of_neg _ h, List.filter_cons_of_neg h, ih]

/-- C5 counterexample: for the Devanagari text `क` and the single voice
`{ lang: 'hi', name: 'Google Hindi' }`, the claim predicts utterance language
`hi-IN`, but `speakText` hands `speak` an utterance whose language is the voice's
own `hi`: the assignment of `hi-IN` at line 55 is overwritten by
`utterance.lang = voice.lang || lang` at line 68. -/
theorem speakText_c5_cex :
    claimC5Lang "क" [⟨"hi", "Google Hindi"⟩] = some "hi-IN" ∧
    speakText true "क" none "en-US" [⟨"hi", "Google Hindi"⟩]
      = some ⟨some ⟨"hi", "Google Hindi"⟩, "hi"⟩ ∧
    decide (("hi" : String) = "hi-IN") = false := by
  refine ⟨rfl, rfl, by decide⟩

/-- C5 amended: without an explicit voice, `speakText` chooses, for Devanagari text,
the first voice whose lang includes `hi` and name includes `Google`, else the first
whose lang includes `hi`, else none; otherwise the first whose lang is or includes
`en-IN` and name includes `Google`, else the first whose lang is or includes
`en-IN`, else the first whose name includes `India`, else none.  The intermediate
`hi-IN`/`en-IN` assignments are overwritten: the utterance's final language is the
chosen voice's lang when nonempty, and the `lang` parameter otherwise (also when no
voice is chosen). -/
theorem speakText_c5_amended (text : String) (voices : List Voice) (lang : String) :
    speakText true text none lang voices = some (amendedC5Utterance text voices lang) := by
  have hv : autoSelectVoice text voices = amendedC5Voice text voices := by
    unfold autoSelectVoice amendedC5Voice
    simp only [findEqFilterHead]
  unfold speakText amendedC5Utterance
  rw [hv]
  cases amendedC5Voice text voices <;> rfl

/-- C10: the three categories of `getCategorizedVoices` do not cover the input: the
voice `{ lang: 'ta-IN', name: 'India Tamil' }` — lowercased name containing `india`,
lang neither `en-IN` nor containing `en` or `hi` — is in none of `hindi`,
`indianEnglish` and `others`. -/
theorem getCategorizedVoices_not_covering :
    ∃ (voices : List Voice) (v : Voice),
      v ∈ voices ∧
      v ∉ (getCategorizedVoices voices).hindi ∧
      v ∉ (getCategorizedVoices voices).indianEnglish ∧
      v ∉ (getCategorizedVoices voices).others := by
  exact ⟨[⟨"ta-IN", "India Tamil"⟩], ⟨"ta-IN", "India Tamil"⟩,
         by decide, by decide, by decide, by decide⟩

/-- Helper: upper-casing keeps a character of the gift-code alphabet inside the
alphabet. -/
theorem charToUpperMemCodeChars :
    ∀ c ∈ codeCharsList, Char.toUpper c ∈ codeCharsList := by
  decide

/-- Helper: every character drawn by the gift-code inner loop belongs to the
alphabet. -/
theorem genOneCode_mem (rand : Nat → Fin 32) (offset : Nat) :
    ∀ ch ∈ genOneCode rand offset, ch ∈ codeCharsList := by
  intro ch hch
  unfold genOneCode at hch
  obtain ⟨j, _, rfl⟩ := List.mem_map.mp hch
  exact List.get_mem _ _ _

/-- C8: `generateGiftCodes` creates exactly `count` codes; every code is a
12-character string over the alphabet (which excludes `I`, `O`, `0` and `1`), and
every record starts unredeemed with `usedCount 0`, `maxUses 1`, an empty
`redeemedBy`, amount equal to the given amount for CREDITS and `0` (with default
tier `WEEKLY`, level `BASIC`) for SUBSCRIPTION. -/
theorem generateGiftCodes_spec (amount : Int) (count : Nat) (gtype : GCType)
    (rand : Nat → Fin 32) (now : Nat) (createdAt : String) :
    (generateGiftCodes amount count gtype rand now createdAt).1.length = count ∧
    ('I' ∉ codeCharsList ∧ 'O' ∉ codeCharsList ∧ '0' ∉ codeCharsList ∧
      '1' ∉ codeCharsList) ∧
    ∀ c ∈ (generateGiftCodes amount count gtype rand now createdAt).1,
      c.code.length = 12 ∧
      (∀ ch ∈ c.code.data, ch ∈ codeCharsList) ∧
      c.isRedeemed = false ∧ c.usedCount = 0 ∧ c.maxUses = 1 ∧ c.redeemedBy = [] ∧
      c.amount = (if gtype = GCType.CREDITS then amount else 0) ∧
      (gtype = GCType.SUBSCRIPTION →
        c.subTier = some "WEEKLY" ∧ c.subLevel = some "BASIC") := by
  refine ⟨by simp [generateGiftCodes], ⟨by decide, by decide, by decide, by decide⟩, ?_⟩
  intro c hc
  simp only [generateGiftCodes, List.mem_map, List.mem_range] at hc
  obtain ⟨i, _, rfl⟩ := hc
  refine ⟨rfl, ?_, rfl, rfl, rfl, rfl, rfl, ?_⟩
  · intro ch hch
    have hch' : ch ∈ (genOneCode rand (12 * i)).map Char.toUpper := hch
    obtain ⟨ch0, hch0, rfl⟩ := List.mem_map.mp hch'
    exact charToUpperMemCodeChars ch0 (genOneCode_mem rand (12 * i) ch0 hch0)
  · intro h
    subst h
    exact ⟨rfl, rfl⟩

/-- Witness for C8 at `count = 1`, `amount = 5`, type CREDITS, the constantly-zero
draw stream and clock tick 7. -/
theorem generateGiftCodes_spec_witness :
    (generateGiftCodes 5 1 GCType.CREDITS randZero 7 "T").1.length = 1 ∧
    ∃ c, c ∈ (generateGiftCodes 5 1 GCType.CREDITS randZero 7 "T").1 ∧
      c.code.length = 12 ∧ c.isRedeemed = false ∧ c.usedCount = 0 ∧
      c.maxUses = 1 ∧ c.redeemedBy = [] ∧ c.amount = 5 := by
  have h := generateGiftCodes_spec 5 1 GCType.CREDITS randZero 7 "T"
  have hmem : mkGiftCode 5 GCType.CREDITS randZero 7 "T" 0
      ∈ (generateGiftCodes 5 1 GCType.CREDITS randZero 7 "T").1 := by
    simp [generateGiftCodes]
  obtain ⟨hc1, _, hc3, hc4, hc5, hc6, hc7, _⟩ := h.2.2 _ hmem
  exact ⟨h.1, _, hmem, hc1, hc3, hc4, hc5, hc6, by simpa using hc7⟩

/-- C6 counterexample: the program does contain a cancel operation and a timer-based
fallback — `speakText` cancels any ongoing speech before speaking (line 42),
`stopSpeech` is a cancel, and `getAvailableVoices` arms a 2000 ms fallback
`setTimeout` when the initial voice list is empty (lines 20-22). -/
theorem singleShot_cex :
    ExtCall.synthCancel ∈ speakTextCalls true none ∧
    ExtCall.setTimer 2000 ∈ getAvailableVoicesCalls true [] ∧
    ExtCall.synthCancel ∈ stopSpeechCalls true := by
  refine ⟨by decide, by decide, by decide⟩

/-- C6 amended: the registry actions issue their external calls single-shot — no
cancel, no timer, each call at most once for the straight-line actions, one write
per code for `generateGiftCodes` — but the speech helpers do use a cancel operation
(`speakText` always cancels before speaking, `stopSpeech` is exactly a cancel) and
`getAvailableVoices` arms a 2000 ms timer fallback when the voice list is initially
empty. -/
theorem singleShot_amended :
    (∀ (store : Store Value) (uid : String),
       ExtCall.synthCancel ∉ updateUserCalls store uid ∧
       (∀ ms, ExtCall.setTimer ms ∉ updateUserCalls store uid) ∧
       (updateUserCalls store uid).Nodup) ∧
    (∀ uid, ExtCall.synthCancel ∉ deleteUserCalls uid ∧
       (∀ ms, ExtCall.setTimer ms ∉ deleteUserCalls uid) ∧
       (deleteUserCalls uid).Nodup) ∧
    (∀ s, ExtCall.synthCancel ∉ updateSystemSettingsCalls s ∧
       (∀ ms, ExtCall.setTimer ms ∉ updateSystemSettingsCalls s) ∧
       (updateSystemSettingsCalls s).Nodup) ∧
    (∀ rand count, ExtCall.synthCancel ∉ generateGiftCodesCalls rand count ∧
       (∀ ms, ExtCall.setTimer ms ∉ generateGiftCodesCalls rand count) ∧
       (generateGiftCodesCalls rand count).length = count) ∧
    (∀ va, ExtCall.synthCancel ∈ speakTextCalls true va) ∧
    ExtCall.setTimer 2000 ∈ getAvailableVoicesCalls true [] ∧
    stopSpeechCalls true = [ExtCall.synthCancel] := by
  refine ⟨?_, ?_, ?_, ?_, ?_, by decide, by decide⟩
  · intro store uid
    rcases h : store uid with _ | u <;>
      refine ⟨by simp [updateUserCalls, h], fun ms => by simp [updateUserCalls, h],
              by simp [updateUserCalls, h]⟩
  · intro uid
    refine ⟨by simp [deleteUserCalls], fun ms => by simp [deleteUserCalls],
            by simp [deleteUserCalls]⟩
  · intro s
    rcases s with _ | s <;>
      refine ⟨by simp [updateSystemSettingsCalls], fun ms => by simp [updateSystemSettingsCalls],
              by simp [updateSystemSettingsCalls]⟩
  · intro rand count
    refine ⟨by simp [generateGiftCodesCalls], fun ms => by simp [generateGiftCodesCalls],
            by simp [generateGiftCodesCalls]⟩
  · intro va
    rcases va with _ | v <;> simp [speakTextCalls]

/-- Witness for C6's amended theorem at concrete inputs: a one-read trace, a
three-write code generation, and the speech helpers' cancel/timer facts. -/
theorem singleShot_amended_witness :
    (updateUserCalls emptyStore "u1").Nodup ∧
    (generateGiftCodesCalls randZero 3).length = 3 ∧
    ExtCall.synthCancel ∈ speakTextCalls true none ∧
    stopSpeechCalls true = [ExtCall.synthCancel] := by
  have h := singleShot_amended
  exact ⟨(h.1 emptyStore "u1").2.2, (h.2.2.2.1 randZero 3).2.2,
         h.2.2.2.2.1 none, h.2.2.2.2.2.2⟩
